import Mathlib

/-!
Shallow embedding of the PostHog Redshift import plugin (src/index.ts).

The plugin is a self-perpetuating batch import job: `setupPlugin` validates
configuration, computes a row ceiling, seeds a fast counter from the durable
offset and schedules the first job; `importAndIngestEvents` allocates (or
reuses) an offset, fetches one batch through `executeQuery`, transforms rows
and ingests events, and schedules its own continuation or retry;
`teardownPlugin` persists a clamped offset.

Modelling conventions:
- JS numbers used as offsets, counters and retry counts are `Nat`.
- A payload field that may be absent is `Option Nat`; JS truthiness of
  `payload.offset` (false for both `undefined` and `0`) is `offsetTruthy`.
- The fast counter (Redis) is passed as an explicit `counter : Nat`; the
  atomic `cache.incr` is `counter + 1` returning the new value.
- The query executor's outcome at a given offset is an oracle
  `fetch : Nat -> Option (List Row)`; `none` covers the source's failure
  condition `!queryResponse || queryResponse.error || !queryResponse.queryResult`
  (in `executeQuery`, a query failure always leaves `queryResult` null).
- One job invocation is summarised by a `JobRun` record: the counter after
  the run, the offset variable computed, the offset actually passed to the
  query executor, the list of scheduled follow-up jobs with their delays in
  seconds (0 stands for `runNow`), the ingested events, and whether an
  exception escaped the job body.
-/

namespace RedshiftImport

/-- The fixed batch size `EVENTS_PER_BATCH = 10` (src/index.ts line 53). -/
def EVENTS_PER_BATCH : Nat := 10

/-- A JSON-like value as it appears in row columns and event properties. -/
inductive JsonVal where
  | str (s : String)
  | num (n : Int)
  deriving DecidableEq

/-- A transformed event `{ event, properties }` (interface
TransformedPluginEvent). Properties are an association list; as with a JS
object literal built left to right, a later binding for a key overrides an
earlier one. -/
structure TransformedPluginEvent where
  event : String
  properties : List (String × JsonVal)
  deriving DecidableEq

/-- A batch job payload (interface ImportEventsJobPayload): an optional
offset and the retry count. -/
structure Payload where
  offset : Option Nat
  retriesPerformedSoFar : Nat
  deriving DecidableEq

/-- The process-wide values set up by `setupPlugin` and read by the job:
`global.initialOffset` and `global.totalRows`. -/
structure Globals where
  initialOffset : Nat
  totalRows : Nat
  deriving DecidableEq

/-- JS truthiness of the `payload.offset` field: falsy when the field is
absent and also when it is present but equal to 0 (src/index.ts lines 162
and 172 test `payload.offset` directly). -/
def offsetTruthy : Option Nat → Bool
  | none => false
  | some o => o != 0

/-- Everything observable about one invocation of the batch import job. -/
structure JobRun where
  counterAfter : Nat
  offset : Option Nat
  queriedOffset : Option Nat
  scheduled : List (Payload × Nat)
  ingested : List TransformedPluginEvent
  threw : Bool
  deriving DecidableEq

/-- The offset computation of src/index.ts lines 171-177: reuse a truthy
payload offset, otherwise atomically increment the counter and return
`initialOffset + (newCounterValue - 1) * EVENTS_PER_BATCH`. Returns the
counter after the step and the offset variable. -/
def jobOffset (g : Globals) (counter : Nat) (p : Payload) : Nat × Nat :=
  if offsetTruthy p.offset then (counter, p.offset.getD 0)
  else (counter + 1, g.initialOffset + (counter + 1 - 1) * EVENTS_PER_BATCH)

/-- `importAndIngestEvents` (src/index.ts lines 158-229), one invocation.
Control flow mirrored from the source:
1. entry guard `payload.offset && payload.retriesPerformedSoFar >= 15`:
   log and return (no scheduling);
2. offset: reuse truthy payload offset, else fresh allocation via
   `cache.incr`;
3. `offset > global.totalRows`: done, return (no scheduling);
4. fetch through the query executor; on failure, schedule a retry with the
   spread payload `{...payload, retriesPerformedSoFar + 1}` delayed by
   `2 ** retriesPerformedSoFar * 3` seconds — the source then FALLS THROUGH
   (no `return`) into the row loop and dereferences
   `queryResponse.queryResult!.rows` on a null result, so a TypeError
   escapes the job: `threw := true`, nothing ingested, no continuation;
5. on success, transform every row, ingest every event, and schedule the
   continuation `{ retriesPerformedSoFar: 0 }` (no offset) via `runNow`. -/
def importAndIngestEvents {Row : Type} (g : Globals) (counter : Nat)
    (fetch : Nat → Option (List Row))
    (transform : Row → TransformedPluginEvent)
    (p : Payload) : JobRun :=
  if offsetTruthy p.offset ∧ p.retriesPerformedSoFar ≥ 15 then
    { counterAfter := counter, offset := none, queriedOffset := none,
      scheduled := [], ingested := [], threw := false }
  else
    let c := (jobOffset g counter p).1
    let offset := (jobOffset g counter p).2
    if offset > g.totalRows then
      { counterAfter := c, offset := some offset, queriedOffset := none,
        scheduled := [], ingested := [], threw := false }
    else
      match fetch offset with
      | none =>
        { counterAfter := c, offset := some offset, queriedOffset := some offset,
          scheduled := [({ p with retriesPerformedSoFar := p.retriesPerformedSoFar + 1 },
                         2 ^ p.retriesPerformedSoFar * 3)],
          ingested := [], threw := true }
      | some rows =>
        { counterAfter := c, offset := some offset, queriedOffset := some offset,
          scheduled := [({ offset := none, retriesPerformedSoFar := 0 }, 0)],
          ingested := rows.map transform, threw := false }

/-- `teardownPlugin` (src/index.ts lines 121-126): read the counter, convert
it to an absolute offset `counter * EVENTS_PER_BATCH`, clamp to
`global.totalRows`, and persist the result durably. -/
def teardownStoredOffset (counter totalRows : Nat) : Nat :=
  let workerOffset := counter * EVENTS_PER_BATCH
  if workerOffset > totalRows then totalRows else workerOffset

/-- The counter seeding of `setupPlugin` (src/index.ts lines 102-114): the
durable offset is loaded, `global.initialOffset` is set to it, and the fast
counter is set to `Math.floor(initialOffset / EVENTS_PER_BATCH)`. -/
def setupSeedCounter (storedOffset : Nat) : Nat :=
  storedOffset / EVENTS_PER_BATCH

/-- The two values of the `importMechanism` configuration option. -/
inductive ImportMechanism where
  | continuous
  | historical
  deriving DecidableEq

/-- JS truthiness of the stored snapshot read by
`storage.get('total_rows_snapshot', null)`: falsy when null and also when
the stored number is 0 (src/index.ts line 94 tests `!totalRowsSnapshot`). -/
def snapshotTruthy : Option Nat → Bool
  | none => false
  | some n => n != 0

/-- The row-ceiling logic of `setupPlugin` (src/index.ts lines 88-99): set
`global.totalRows` to the live COUNT; in historical mode, if a truthy
snapshot is stored use it as the ceiling, otherwise record the live count
as the snapshot. Returns `(global.totalRows, snapshot in storage after
setup)`. -/
def setupTotalRows (mech : ImportMechanism) (liveCount : Nat)
    (snapshot : Option Nat) : Nat × Option Nat :=
  if mech = ImportMechanism.historical then
    if snapshotTruthy snapshot then (snapshot.getD 0, snapshot)
    else (liveCount, some liveCount)
  else (liveCount, snapshot)

/-- Models the JS builtin JSON.parse inside a double-quoted JSON string:
consumes characters up to the closing quote (no escape sequences, which the
claims' inputs do not use) and returns the string and the rest. -/
def parseJsonString : List Char → Option (String × List Char)
  | [] => none
  | c :: rest =>
    if c = '\"' then some ("", rest)
    else
      match parseJsonString rest with
      | some (s, r) => some (String.mk (c :: s.data), r)
      | none => none

/-- Models the JS builtin JSON.parse on a run of decimal digits, folding
them onto an accumulator. -/
def parseJsonNat : List Char → Nat → Nat × List Char
  | [], acc => (acc, [])
  | c :: rest, acc =>
    if c.isDigit then parseJsonNat rest (acc * 10 + (c.toNat - 48))
    else (acc, c :: rest)

/-- Models the JS builtin JSON.parse on a scalar value: a double-quoted
string or a non-negative decimal number. -/
def parseJsonValue : List Char → Option (JsonVal × List Char)
  | [] => none
  | c :: rest =>
    if c = '\"' then
      match parseJsonString rest with
      | some (s, r) => some (JsonVal.str s, r)
      | none => none
    else if c.isDigit then
      let p := parseJsonNat rest (c.toNat - 48)
      some (JsonVal.num (Int.ofNat p.1), p.2)
    else none

/-- Models the JS builtin JSON.parse on the members of a flat object: a
comma-separated sequence of `"key":value` pairs terminated by the closing
brace. `fuel` bounds the recursion by the input length. -/
def parseJsonPairs : Nat → List Char → Option (List (String × JsonVal) × List Char)
  | 0, _ => none
  | fuel + 1, cs =>
    match cs with
    | '\"' :: rest =>
      match parseJsonString rest with
      | some (key, r1) =>
        match r1 with
        | ':' :: r2 =>
          match parseJsonValue r2 with
          | some (v, r3) =>
            match r3 with
            | ',' :: r4 =>
              match parseJsonPairs fuel r4 with
              | some (ps, r5) => some ((key, v) :: ps, r5)
              | none => none
            | '\x7d' :: r4 => some ([(key, v)], r4)
            | _ => none
          | none => none
        | _ => none
      | none => none
    | _ => none

/-- Models the JS builtin JSON.parse restricted to the flat-object fragment
the default transformation's `properties` column uses: `none` stands for
JSON.parse throwing a SyntaxError. -/
def jsonParseFlatObject (s : String) : Option (List (String × JsonVal)) :=
  match s.data with
  | '\x7b' :: rest =>
    match rest with
    | ['\x7d'] => some []
    | _ =>
      match parseJsonPairs s.length rest with
      | some (ps, tail) => if tail = [] then some ps else none
      | none => none
  | _ => none

/-- The columns the default transformation destructures from a source row
(src/index.ts line 238): `timestamp`, `distinct_id`, `event`, and the
JSON-encoded `properties` string. -/
structure DefaultRow where
  timestamp : JsonVal
  distinct_id : JsonVal
  event : String
  properties : String
  deriving DecidableEq

/-- The `transformations.default.transform` function (src/index.ts lines
235-250): the event named by the row's `event` column, with properties
built as the object literal `\x7b timestamp, distinct_id,
...JSON.parse(properties), source: 'redshift_import' \x7d` (later keys
override earlier ones in the association list). `none` stands for
JSON.parse throwing. -/
def defaultTransform (row : DefaultRow) : Option TransformedPluginEvent :=
  match jsonParseFlatObject row.properties with
  | none => none
  | some parsed =>
    some { event := row.event,
           properties :=
             [("timestamp", row.timestamp), ("distinct_id", row.distinct_id)]
               ++ parsed ++ [("source", JsonVal.str "redshift_import")] }

/-- The result record of `executeQuery` (interface ExecuteQueryResponse):
a tagged error and a nullable query result. -/
structure ExecuteQueryResponse (R : Type) where
  error : Option String
  queryResult : Option R
  deriving DecidableEq

/-- `executeQuery` (src/index.ts lines 129-156). `connect` is the outcome of
`pgClient.connect()` (`some e` = it throws with error `e`) and `query` the
outcome of `pgClient.query` if reached. Only the query call sits inside the
source's try/catch, so a connect failure propagates as an exception
(`Except.error`); otherwise the call returns the tagged response together
with `true` recording that `pgClient.end()` closed the connection. -/
def executeQuery {R : Type} (connect : Option String)
    (query : Except String R) : Except String (ExecuteQueryResponse R × Bool) :=
  match connect with
  | some e => Except.error e
  | none =>
    match query with
    | Except.ok r => Except.ok ({ error := none, queryResult := some r }, true)
    | Except.error e => Except.ok ({ error := some e, queryResult := none }, true)

/-! Scenario fixtures for the 25-row fresh-start import (claim C6). The
table is 25 rows (modelled as the numbers 0..24); the query executor always
succeeds and returns the `EVENTS_PER_BATCH`-row slice starting at the
requested offset; each successive run starts from the counter left by the
previous run and uses the payload the previous run scheduled. -/

def c6table : List Nat := List.range 25

def c6fetch (o : Nat) : Option (List Nat) :=
  some ((c6table.drop o).take EVENTS_PER_BATCH)

def c6transform (n : Nat) : TransformedPluginEvent :=
  { event := toString n, properties := [] }

def c6g : Globals := { initialOffset := 0, totalRows := 25 }

def c6run1 : JobRun := importAndIngestEvents c6g 0 c6fetch c6transform ⟨none, 0⟩

def c6run2 : JobRun :=
  importAndIngestEvents c6g c6run1.counterAfter c6fetch c6transform ⟨none, 0⟩

def c6run3 : JobRun :=
  importAndIngestEvents c6g c6run2.counterAfter c6fetch c6transform ⟨none, 0⟩

def c6run4 : JobRun :=
  importAndIngestEvents c6g c6run3.counterAfter c6fetch c6transform ⟨none, 0⟩

/-- Claim C6 (confirmed): with 25 rows, batch size 10 and a fresh start
(initialOffset 0, counter 0), the successive successful runs fetch offsets
0, 10 and 20 (the last ingesting only 5 events), each scheduling the
continuation payload with no offset and retriesPerformedSoFar 0 via runNow,
and the fourth run computes offset 30 > rowCeiling 25 and terminates
without scheduling anything. -/
theorem fresh_import_scenario_25_rows :
    c6run1.queriedOffset = some 0 ∧ c6run1.ingested.length = 10 ∧
    c6run1.scheduled = [(⟨none, 0⟩, 0)] ∧ c6run1.threw = false ∧
    c6run2.queriedOffset = some 10 ∧ c6run2.ingested.length = 10 ∧
    c6run2.scheduled = [(⟨none, 0⟩, 0)] ∧ c6run2.threw = false ∧
    c6run3.queriedOffset = some 20 ∧ c6run3.ingested.length = 5 ∧
    c6run3.scheduled = [(⟨none, 0⟩, 0)] ∧ c6run3.threw = false ∧
    c6run4.offset = some 30 ∧ c6run4.queriedOffset = none ∧
    c6run4.scheduled = [] ∧ c6run4.threw = false := by
  decide

/-- Claim C9 (confirmed): the default transformation applied to the row
with event "signup", timestamp "t", distinct_id "u1" and properties the
JSON text of the object mapping "a" to 1 returns the event named "signup"
whose properties are the timestamp and distinct_id columns, the parsed
properties JSON, and the provenance marker source = "redshift_import". -/
theorem default_transform_scenario :
    defaultTransform
        { timestamp := JsonVal.str "t", distinct_id := JsonVal.str "u1",
          event := "signup", properties := "\x7b\"a\":1\x7d" } =
      some { event := "signup",
             properties :=
               [("timestamp", JsonVal.str "t"),
                ("distinct_id", JsonVal.str "u1"),
                ("a", JsonVal.num 1),
                ("source", JsonVal.str "redshift_import")] } := by
  decide

/-- Claim C1 (code_bug evaluation): the shutdown/restart round-trip does
not resume at the persisted offset. A shutdown with counter 2 and 100 total
rows persists offset 20; setupPlugin then sets initialOffset to 20 and
seeds the counter with floor(20 / 10) = 2; the first fresh allocation after
restart computes 20 + (3 - 1) * 10 = 40, not the claimed 20: initialOffset
is added on top of the re-seeded counter, double-counting the durable
offset. -/
theorem restart_roundtrip_divergence :
    teardownStoredOffset 2 100 = 20 ∧
    setupSeedCounter 20 = 2 ∧
    (importAndIngestEvents ⟨20, 100⟩ (setupSeedCounter 20)
        (fun _ => some ([] : List Nat))
        (fun _ => { event := "", properties := [] })
        ⟨none, 0⟩).offset = some 40 := by
  decide

/-- Claim C3 (code_bug evaluation): when the fetch fails on a fresh
allocation at offset 0, the run schedules the retry payload with
retriesPerformedSoFar 1 after 3 seconds, ingests nothing and schedules no
continuation — but the missing return after the failure branch makes the
code dereference the null query result's rows, so an exception escapes the
job boundary (threw = true), contradicting the claim that no exception
escapes. -/
theorem query_failure_falls_through_and_throws :
    importAndIngestEvents ⟨0, 100⟩ 0 (fun _ => (none : Option (List Nat)))
        (fun _ => { event := "", properties := [] }) ⟨none, 0⟩ =
      { counterAfter := 1, offset := some 0, queriedOffset := some 0,
        scheduled := [(⟨none, 1⟩, 3)], ingested := [], threw := true } := by
  decide

/-- Claim C2 (counterexample): a failed attempt whose offset came from a
fresh allocation does NOT pin its offset into the retry. With initialOffset
0 and counter 0, the first run queries offset 0 and fails; the retry job it
schedules carries no offset (the spread of the original payload), so
running that retry allocates a fresh offset and queries 10, not the 0 given
to the Query Executor for the failed attempt. -/
theorem retry_loses_fresh_offset :
    (importAndIngestEvents ⟨0, 100⟩ 0 (fun _ => (none : Option (List Nat)))
        (fun _ => { event := "", properties := [] }) ⟨none, 0⟩).queriedOffset
        = some 0 ∧
    (importAndIngestEvents ⟨0, 100⟩ 0 (fun _ => (none : Option (List Nat)))
        (fun _ => { event := "", properties := [] }) ⟨none, 0⟩).scheduled
        = [(⟨none, 1⟩, 3)] ∧
    (importAndIngestEvents ⟨0, 100⟩ 1 (fun _ => (none : Option (List Nat)))
        (fun _ => { event := "", properties := [] }) ⟨none, 1⟩).queriedOffset
        = some 10 := by
  decide

/-- Claim C4 (counterexample): the retry ceiling does not hold for every
payload. A payload with no offset and retriesPerformedSoFar = 15 is not
abandoned at entry (the guard tests the truthiness of payload.offset), so a
failing fetch still schedules a 16th attempt, with retriesPerformedSoFar 16
and delay 2 ^ 15 * 3 = 98304 seconds. -/
theorem offsetless_payload_retries_past_ceiling :
    (importAndIngestEvents ⟨0, 100⟩ 0 (fun _ => (none : Option (List Nat)))
        (fun _ => { event := "", properties := [] }) ⟨none, 15⟩).scheduled
        = [(⟨none, 16⟩, 98304)] := by
  decide

/-- Claim C5 (counterexample): executeQuery does not convert a connection
failure into a tagged error value — pgClient.connect() sits outside the
try/catch, so its failure escapes the function as an exception. -/
theorem connect_failure_escapes :
    executeQuery (some "ECONNREFUSED") (Except.ok ([] : List Nat)) =
      Except.error "ECONNREFUSED" := rfl

/-- Claim C8 (counterexample): a recorded snapshot value of 0 is not honored
in historical mode — the code tests the snapshot's truthiness, so a stored
0 is treated as absent and global.totalRows is set to the live count (here
7) instead of the snapshot 0. -/
theorem zero_snapshot_not_honored :
    (setupTotalRows ImportMechanism.historical 7 (some 0)).1 = 7 ∧
    (setupTotalRows ImportMechanism.historical 7 (some 0)).1 ≠ 0 := by
  decide

/-- Claim C2 (amended): the retry job carries the incoming payload's offset
field unchanged and retriesPerformedSoFar incremented by exactly 1; in
particular, for a payload with a fixed nonzero offset o (and
retriesPerformedSoFar below the ceiling) the offset passed to the Query
Executor is o itself and the scheduled retry re-pins the same o — only a
failed attempt that used a fresh allocation loses its offset, because the
spread payload carries no offset field. -/
theorem retry_pins_nonzero_offset {Row : Type} (g : Globals) (counter : Nat)
    (fetch : Nat → Option (List Row)) (transform : Row → TransformedPluginEvent)
    (o k : Nat) (ho : o ≠ 0) (hk : k < 15) (hle : o ≤ g.totalRows)
    (hf : fetch o = none) :
    (importAndIngestEvents g counter fetch transform ⟨some o, k⟩).queriedOffset
        = some o ∧
    (importAndIngestEvents g counter fetch transform ⟨some o, k⟩).scheduled
        = [(⟨some o, k + 1⟩, 2 ^ k * 3)] := by
  have ht : offsetTruthy (some o) = true := by
    simp [offsetTruthy, ho]
  unfold importAndIngestEvents jobOffset
  rw [if_neg (fun h => absurd h.2 (by
    show ¬ 15 ≤ k
    omega))]
  simp only [ht, if_pos, Option.getD_some, ite_true]
  rw [if_neg (by omega : ¬ o > g.totalRows)]
  rw [hf]
  exact ⟨rfl, rfl⟩

/-- Witness for retry_pins_nonzero_offset at g = (0, 100), counter = 0,
an always-failing fetch, o = 10 and k = 0. -/
theorem retry_pins_nonzero_offset_witness :
    (importAndIngestEvents ⟨0, 100⟩ 0 (fun _ => (none : Option (List Nat)))
        (fun _ => { event := "", properties := [] }) ⟨some 10, 0⟩).queriedOffset
        = some 10 ∧
    (importAndIngestEvents ⟨0, 100⟩ 0 (fun _ => (none : Option (List Nat)))
        (fun _ => { event := "", properties := [] }) ⟨some 10, 0⟩).scheduled
        = [(⟨some 10, 1⟩, 3)] :=
  retry_pins_nonzero_offset ⟨0, 100⟩ 0 (fun _ => none)
    (fun _ => { event := "", properties := [] }) 10 0
    (by decide) (by decide) (by decide) rfl

/-- Claim C4 (amended): the entry guard abandons exactly the payloads whose
offset field is truthy: a payload carrying a nonzero offset with
retriesPerformedSoFar >= 15 is abandoned at entry — no counter increment,
no fetch, no ingestion, no scheduling of any kind — while payloads with no
offset (or offset 0) are never abandoned and can still schedule a retry at
or beyond the ceiling. -/
theorem nonzero_offset_payload_abandoned_at_ceiling {Row : Type}
    (g : Globals) (counter : Nat) (fetch : Nat → Option (List Row))
    (transform : Row → TransformedPluginEvent) (o k : Nat)
    (ho : o ≠ 0) (hk : 15 ≤ k) :
    importAndIngestEvents g counter fetch transform ⟨some o, k⟩ =
      { counterAfter := counter, offset := none, queriedOffset := none,
        scheduled := [], ingested := [], threw := false } := by
  have ht : offsetTruthy (some o) = true := by
    simp [offsetTruthy, ho]
  unfold importAndIngestEvents
  rw [if_pos ⟨ht, hk⟩]

/-- Witness for nonzero_offset_payload_abandoned_at_ceiling at g = (0, 100),
counter = 0, an always-failing fetch, o = 10 and k = 15. -/
theorem nonzero_offset_payload_abandoned_at_ceiling_witness :
    importAndIngestEvents ⟨0, 100⟩ 0 (fun _ => (none : Option (List Nat)))
        (fun _ => { event := "", properties := [] }) ⟨some 10, 15⟩ =
      { counterAfter := 0, offset := none, queriedOffset := none,
        scheduled := [], ingested := [], threw := false } :=
  nonzero_offset_payload_abandoned_at_ceiling ⟨0, 100⟩ 0 (fun _ => none)
    (fun _ => { event := "", properties := [] }) 10 15 (by decide) (by decide)

/-- Claim C5 (amended): once the connection is established, executeQuery
never throws and always closes the connection before returning: a
successful query yields the tagged response with no error and the rows, a
failing query yields the tagged error with a null result, and in both cases
the connection-closed flag is true. (A pgClient.connect() failure, by
contrast, escapes as an exception: see the counterexample.) -/
theorem executeQuery_tags_query_failures :
    (∀ r : List Nat, executeQuery none (Except.ok r) =
        Except.ok ({ error := none, queryResult := some r }, true)) ∧
    (∀ e : String, executeQuery none (Except.error e : Except String (List Nat)) =
        Except.ok ({ error := some e, queryResult := none }, true)) :=
  ⟨fun _ => rfl, fun _ => rfl⟩

/-- Claim C7 (confirmed): whenever a run whose payload has
retriesPerformedSoFar = k reaches the fetch and the fetch fails, the single
scheduled retry is delayed by exactly 3 * 2 ^ k seconds (the source
computes 2 ** k * 3), giving 3, 6, 12, 24, ... for successive failures of
the same offset. -/
theorem retry_backoff_delay {Row : Type} (g : Globals) (counter : Nat)
    (fetch : Nat → Option (List Row)) (transform : Row → TransformedPluginEvent)
    (p : Payload)
    (hguard : ¬(offsetTruthy p.offset = true ∧ 15 ≤ p.retriesPerformedSoFar))
    (hle : (jobOffset g counter p).2 ≤ g.totalRows)
    (hf : fetch (jobOffset g counter p).2 = none) :
    (importAndIngestEvents g counter fetch transform p).scheduled.map Prod.snd
        = [3 * 2 ^ p.retriesPerformedSoFar] := by
  unfold importAndIngestEvents
  rw [if_neg hguard]
  simp only []
  rw [if_neg (by omega : ¬ (jobOffset g counter p).2 > g.totalRows)]
  rw [hf]
  simp [Nat.mul_comm]

/-- Witness for retry_backoff_delay at g = (0, 100), counter = 0, an
always-failing fetch and the payload with no offset and
retriesPerformedSoFar = 2: the retry is delayed 12 seconds. -/
theorem retry_backoff_delay_witness :
    (importAndIngestEvents ⟨0, 100⟩ 0 (fun _ => (none : Option (List Nat)))
        (fun _ => { event := "", properties := [] })
        ⟨none, 2⟩).scheduled.map Prod.snd = [12] :=
  retry_backoff_delay ⟨0, 100⟩ 0 (fun _ => none)
    (fun _ => { event := "", properties := [] }) ⟨none, 2⟩
    (by decide) (by decide) rfl

/-- Claim C8 (amended): in historical mode, when the recorded ceiling
snapshot is nonzero (the only case the code's truthiness test treats as
recorded), setupPlugin sets the in-process row ceiling global.totalRows to
the snapshot value, whatever the live COUNT of the table is — table growth
never changes the ceiling for that process lifetime. A recorded snapshot of
0 is the exception: it is treated as absent (see the counterexample). -/
theorem nonzero_snapshot_freezes_ceiling (liveCount n : Nat) (hn : n ≠ 0) :
    (setupTotalRows ImportMechanism.historical liveCount (some n)).1 = n := by
  have ht : snapshotTruthy (some n) = true := by
    simp [snapshotTruthy, hn]
  unfold setupTotalRows
  rw [if_pos rfl, if_pos ht]
  rfl

/-- Witness for nonzero_snapshot_freezes_ceiling: with a recorded snapshot
of 25 and a live count grown to 100, the ceiling is 25. -/
theorem nonzero_snapshot_freezes_ceiling_witness :
    (setupTotalRows ImportMechanism.historical 100 (some 25)).1 = 25 :=
  nonzero_snapshot_freezes_ceiling 100 25 (by decide)

/-- Claim C10 (confirmed): a payload whose offset field equals 0 is treated
by importAndIngestEvents exactly like a payload with no offset: the entry
abandonment guard never fires for it whatever retriesPerformedSoFar is (the
counter is always incremented), a fresh offset
initialOffset + counter * EVENTS_PER_BATCH is allocated instead of reusing
offset 0, and the run's queried offset, ingested events and thrown flag all
coincide with those of the run on the offset-less payload. -/
theorem zero_offset_like_no_offset {Row : Type} (g : Globals) (counter : Nat)
    (fetch : Nat → Option (List Row)) (transform : Row → TransformedPluginEvent)
    (k : Nat) :
    (importAndIngestEvents g counter fetch transform ⟨some 0, k⟩).counterAfter
        = counter + 1 ∧
    (importAndIngestEvents g counter fetch transform ⟨some 0, k⟩).offset
        = some (g.initialOffset + counter * EVENTS_PER_BATCH) ∧
    (importAndIngestEvents g counter fetch transform ⟨some 0, k⟩).queriedOffset
        = (importAndIngestEvents g counter fetch transform ⟨none, k⟩).queriedOffset ∧
    (importAndIngestEvents g counter fetch transform ⟨some 0, k⟩).ingested
        = (importAndIngestEvents g counter fetch transform ⟨none, k⟩).ingested ∧
    (importAndIngestEvents g counter fetch transform ⟨some 0, k⟩).threw
        = (importAndIngestEvents g counter fetch transform ⟨none, k⟩).threw := by
  unfold importAndIngestEvents jobOffset
  simp only [offsetTruthy, bne_self_eq_false, Bool.false_eq_true, false_and,
    if_false, ite_false, Nat.add_sub_cancel]
  split
  · exact ⟨rfl, rfl, rfl, rfl, rfl⟩
  · cases fetch (g.initialOffset + counter * EVENTS_PER_BATCH) with
    | none => exact ⟨rfl, rfl, rfl, rfl, rfl⟩
    | some rows => exact ⟨rfl, rfl, rfl, rfl, rfl⟩

end RedshiftImport
